import Mathlib

/-!
Shallow embedding of `src/reset_password.py`, a CLI script that resets a
Firebase user's password via the Firebase Admin SDK.

The external SDK and filesystem are modelled by an `Env` of abstract
responses. Each Python function is translated to a Lean function that
returns the list of observable events (console prints and SDK calls) it
produces, together with its Python return value; `main` returns the event
trace and the process exit code (0 for a normal return, 1 for `sys.exit(1)`).
-/

namespace ResetPassword

/-- Outcome of an SDK call: a normal return, an `auth.UserNotFoundError`,
or any other exception (carrying its message, as Python's `str(e)`). -/
inductive SdkResult (α : Type) where
  | ok (a : α)
  | userNotFound
  | otherError (msg : String)
deriving DecidableEq, Repr

/-- The `UserRecord` returned by `auth.get_user`: the fields the script
reads. `email` and `display_name` may be Python `None`. -/
structure UserRecord where
  uid : String
  email : Option String
  display_name : Option String
  disabled : Bool
  email_verified : Bool
deriving DecidableEq, Repr

/-- The dict built by `get_user_info` from a `UserRecord`. -/
structure UserInfoDict where
  uid : String
  email : Option String
  display_name : Option String
  disabled : Bool
  email_verified : Bool
deriving DecidableEq, Repr

/-- Observable events of a run: console prints and SDK calls. -/
inductive Event where
  | print (s : String)
  | callInitApp
  | callGetUser (uid : String)
  | callUpdateUser (uid : String) (password : String)
deriving DecidableEq, Repr

/-- Abstract environment: the filesystem and the SDK's responses.
`fileExists p` is `Path(p).exists()`; `initApp p` is `none` when
`credentials.Certificate` and `firebase_admin.initialize_app` succeed and
`some msg` when one of them raises; `getUser` is `auth.get_user`;
`updateUser uid pw` is `auth.update_user(uid, password=pw)`. -/
structure Env where
  fileExists : String → Bool
  initApp : String → Option String
  getUser : String → SdkResult UserRecord
  updateUser : String → String → SdkResult Unit

/-- Python `str` of an optional string: `None` when absent (as an f-string
renders a `None` field). -/
def pyShowOptStr : Option String → String
  | none => "None"
  | some s => s

/-- Python `str` of a boolean: `True` / `False`. -/
def pyShowBool : Bool → String
  | true => "True"
  | false => "False"

/-- `initialize_firebase(credentials_path)`: checks the credentials file
exists, initializes the SDK, and on any exception prints an error and calls
`sys.exit(1)`. Result `some ()` is a normal return; `none` means the
process exited with status 1. -/
def initialize_firebase (env : Env) (credentials_path : String) :
    List Event × Option Unit :=
  if env.fileExists credentials_path then
    match env.initApp credentials_path with
    | none =>
        ([Event.callInitApp,
          Event.print ("✅ Firebase Admin SDK initialized successfully")],
         some ())
    | some e =>
        ([Event.callInitApp,
          Event.print ("❌ Error initializing Firebase: " ++ e)],
         none)
  else
    ([Event.print ("❌ Error initializing Firebase: Credentials file not found: "
        ++ credentials_path)],
     none)

/-- `reset_user_password(user_id, new_password)`: issues the update call,
prints an outcome message, and returns `True` on success, `False` on
`UserNotFoundError` or any other exception. -/
def reset_user_password (env : Env) (user_id : String)
    (new_password : String := "password123") : List Event × Bool :=
  match env.updateUser user_id new_password with
  | SdkResult.ok _ =>
      ([Event.callUpdateUser user_id new_password,
        Event.print ("✅ Password successfully reset for user: " ++ user_id)],
       true)
  | SdkResult.userNotFound =>
      ([Event.callUpdateUser user_id new_password,
        Event.print ("❌ User not found: " ++ user_id)],
       false)
  | SdkResult.otherError e =>
      ([Event.callUpdateUser user_id new_password,
        Event.print ("❌ Error resetting password for user " ++ user_id
          ++ ": " ++ e)],
       false)

/-- `get_user_info(user_id)`: looks the user up and returns a dict of
fields, or `None` on `UserNotFoundError`; any other exception prints an
error message and also returns `None`. -/
def get_user_info (env : Env) (user_id : String) :
    List Event × Option UserInfoDict :=
  match env.getUser user_id with
  | SdkResult.ok u =>
      ([Event.callGetUser user_id],
       some { uid := u.uid, email := u.email, display_name := u.display_name,
              disabled := u.disabled, email_verified := u.email_verified })
  | SdkResult.userNotFound =>
      ([Event.callGetUser user_id], none)
  | SdkResult.otherError e =>
      ([Event.callGetUser user_id,
        Event.print ("❌ Error getting user info: " ++ e)],
       none)

/-- The parsed command-line arguments, after `argparse` has applied the
default for `--password`. -/
structure Args where
  user_id : String
  credentials : String
  password : String
  show_user_info : Bool
deriving DecidableEq, Repr

/-- Argument parsing for a well-formed invocation: `-u` and `-c` are
required, `-p` defaults to `"password123"`, `--show-user-info` is a
store-true flag. -/
def parse_args (user_id credentials : String) (password : Option String)
    (show_user_info : Bool) : Args :=
  { user_id := user_id, credentials := credentials,
    password := Option.getD password ("password123"),
    show_user_info := show_user_info }

/-- The tail of `main` from the `# Reset password` comment on: prints the
banner line, calls `reset_user_password`, and on success prints the
completion message with the new password (exit 0); on failure prints the
failure line and exits 1. `acc` is the event trace accumulated so far. -/
def mainResetStep (env : Env) (args : Args) (acc : List Event) :
    List Event × Nat :=
  let acc2 := acc ++ [Event.print ("\n🔐 Resetting password for user: "
    ++ args.user_id)]
  let rp := reset_user_password env args.user_id args.password
  if rp.2 then
    (acc2 ++ rp.1 ++
      [Event.print ("✅ Password reset completed successfully!"),
       Event.print ("   New password: " ++ args.password)],
     0)
  else
    (acc2 ++ rp.1 ++ [Event.print ("❌ Password reset failed")], 1)

/-- `main()` after argument parsing: header, `initialize_firebase`, the
optional `--show-user-info` lookup, then the password reset. Returns the
event trace and the process exit code. -/
def main (env : Env) (args : Args) : List Event × Nat :=
  let t0 : List Event :=
    [Event.print ("🔥 Firebase Password Reset Tool"),
     Event.print (String.mk (List.replicate 40 '='))]
  let init := initialize_firebase env args.credentials
  match init.2 with
  | none => (t0 ++ init.1, 1)
  | some _ =>
    let afterInit := t0 ++ init.1
    if args.show_user_info then
      let tq := afterInit ++
        [Event.print ("\n📋 Getting user information for: " ++ args.user_id)]
      let gui := get_user_info env args.user_id
      match gui.2 with
      | some info =>
          mainResetStep env args (tq ++ gui.1 ++
            [Event.print ("  Email: " ++ pyShowOptStr info.email),
             Event.print ("  Display Name: " ++ pyShowOptStr info.display_name),
             Event.print ("  Email Verified: " ++ pyShowBool info.email_verified),
             Event.print ("  Account Disabled: " ++ pyShowBool info.disabled)])
      | none =>
          (tq ++ gui.1 ++
            [Event.print ("❌ User " ++ args.user_id ++ " not found")],
           1)
    else
      mainResetStep env args afterInit

/-- Whether an event is a password-update SDK call. -/
def isUpdateCall : Event → Bool
  | Event.callUpdateUser _ _ => true
  | _ => false

/-- Whether an event is a password-update SDK call for the given user. -/
def updateCallFor (uid : String) : Event → Bool
  | Event.callUpdateUser u _ => u == uid
  | _ => false

/-- Whether an event is a user-lookup SDK call. -/
def isGetUserCall : Event → Bool
  | Event.callGetUser _ => true
  | _ => false

/-- Whether an event is any user operation (lookup or update). -/
def isUserOp (e : Event) : Bool := isGetUserCall e || isUpdateCall e

/-! Concrete environments and argument sets used to exercise the model. -/

/-- A sample user record on the platform. -/
def userAlice : UserRecord :=
  { uid := "alice", email := some ("alice@example.com"),
    display_name := some ("Alice"), disabled := false, email_verified := true }

/-- Everything succeeds: credentials file present, SDK initializes, the
target user exists for lookup and update. -/
def envAllOk : Env :=
  { fileExists := fun _ => true, initApp := fun _ => none,
    getUser := fun _ => SdkResult.ok userAlice,
    updateUser := fun _ _ => SdkResult.ok () }

/-- The credentials file does not exist. -/
def envNoFile : Env :=
  { fileExists := fun _ => false, initApp := fun _ => none,
    getUser := fun _ => SdkResult.ok userAlice,
    updateUser := fun _ _ => SdkResult.ok () }

/-- Initialization works but the target user does not exist. -/
def envUserMissing : Env :=
  { fileExists := fun _ => true, initApp := fun _ => none,
    getUser := fun _ => SdkResult.userNotFound,
    updateUser := fun _ _ => SdkResult.userNotFound }

/-- Initialization works, lookup works, but the update call raises a
generic error. -/
def envUpdateError : Env :=
  { fileExists := fun _ => true, initApp := fun _ => none,
    getUser := fun _ => SdkResult.ok userAlice,
    updateUser := fun _ _ => SdkResult.otherError ("quota exceeded") }

/-- Initialization works but the lookup call raises a generic error. -/
def envLookupError : Env :=
  { fileExists := fun _ => true, initApp := fun _ => none,
    getUser := fun _ => SdkResult.otherError ("network unreachable"),
    updateUser := fun _ _ => SdkResult.ok () }

/-- A plain invocation: no `-p`, no `--show-user-info`. -/
def argsPlain : Args := parse_args ("alice") ("creds.json") none false

/-- An invocation with `--show-user-info` and an explicit password. -/
def argsShow : Args := parse_args ("alice") ("creds.json") (some ("s3cret")) true

/-- C9: `reset_user_password` is total over all SDK outcomes and returns
`true` exactly when the update call succeeds; `UserNotFoundError` and every
other exception are caught and yield `false`. -/
theorem reset_user_password_true_iff_ok (env : Env) (u p : String) :
    (reset_user_password env u p).2 = true ↔
      env.updateUser u p = SdkResult.ok () := by
  cases h : env.updateUser u p with
  | ok a => cases a; simp [reset_user_password, h]
  | userNotFound => simp [reset_user_password, h]
  | otherError e => simp [reset_user_password, h]

/-- C1: with an existing credentials file, successful initialization, no
`--show-user-info`, and a successful update for the target user, `main`
issues exactly one update call (which is for that user), issues no lookup
call, and exits with code 0. -/
theorem main_valid_no_flag_single_update (env : Env) (args : Args)
    (hf : env.fileExists args.credentials = true)
    (hi : env.initApp args.credentials = none)
    (hs : args.show_user_info = false)
    (hu : env.updateUser args.user_id args.password = SdkResult.ok ()) :
    List.countP (updateCallFor args.user_id) (main env args).1 = 1 ∧
    List.countP isUpdateCall (main env args).1 = 1 ∧
    List.countP isGetUserCall (main env args).1 = 0 ∧
    (main env args).2 = 0 := by
  simp [main, mainResetStep, initialize_firebase, reset_user_password,
        hf, hi, hs, hu, List.countP_append, List.countP_cons,
        updateCallFor, isUpdateCall, isGetUserCall]

/-- Closed instance of the C1 theorem at a concrete environment. -/
theorem main_valid_no_flag_single_update_witness :
    List.countP (updateCallFor argsPlain.user_id) (main envAllOk argsPlain).1 = 1 ∧
    List.countP isUpdateCall (main envAllOk argsPlain).1 = 1 ∧
    List.countP isGetUserCall (main envAllOk argsPlain).1 = 0 ∧
    (main envAllOk argsPlain).2 = 0 :=
  main_valid_no_flag_single_update envAllOk argsPlain rfl rfl rfl rfl

/-- C2: when the credentials path does not resolve to an existing file,
`main` exits with status 1 and issues no user operation at all. -/
theorem main_missing_credentials_no_user_op (env : Env) (args : Args)
    (hf : env.fileExists args.credentials = false) :
    (main env args).2 = 1 ∧
    List.countP isUserOp (main env args).1 = 0 := by
  simp [main, initialize_firebase, hf, List.countP_append, List.countP_cons,
        isUserOp, isUpdateCall, isGetUserCall]

/-- Closed instance of the C2 theorem at a concrete environment. -/
theorem main_missing_credentials_no_user_op_witness :
    (main envNoFile argsPlain).2 = 1 ∧
    List.countP isUserOp (main envNoFile argsPlain).1 = 0 :=
  main_missing_credentials_no_user_op envNoFile argsPlain rfl

/-- C3: with `--show-user-info` set and a nonexistent target user, `main`
exits with status 1 and never issues a password-update call. -/
theorem main_show_info_missing_user_no_update (env : Env) (args : Args)
    (hf : env.fileExists args.credentials = true)
    (hi : env.initApp args.credentials = none)
    (hs : args.show_user_info = true)
    (hg : env.getUser args.user_id = SdkResult.userNotFound) :
    (main env args).2 = 1 ∧
    List.countP isUpdateCall (main env args).1 = 0 := by
  simp [main, initialize_firebase, get_user_info, hf, hi, hs, hg,
        List.countP_append, List.countP_cons, isUpdateCall]

/-- Closed instance of the C3 theorem at a concrete environment. -/
theorem main_show_info_missing_user_no_update_witness :
    (main envUserMissing argsShow).2 = 1 ∧
    List.countP isUpdateCall (main envUserMissing argsShow).1 = 0 :=
  main_show_info_missing_user_no_update envUserMissing argsShow rfl rfl rfl rfl

/-- C4: on a run that reaches the reset step, a `UserNotFoundError` from the
update call and any other update error print different messages, but both
make `main` exit with status 1. -/
theorem reset_failure_messages_distinct_both_exit_one (env : Env) (args : Args)
    (hf : env.fileExists args.credentials = true)
    (hi : env.initApp args.credentials = none)
    (hs : args.show_user_info = false) :
    (env.updateUser args.user_id args.password = SdkResult.userNotFound →
      (main env args).2 = 1 ∧
      Event.print ("❌ User not found: " ++ args.user_id) ∈ (main env args).1) ∧
    (∀ e, env.updateUser args.user_id args.password = SdkResult.otherError e →
      (main env args).2 = 1 ∧
      Event.print ("❌ Error resetting password for user " ++ args.user_id
        ++ ": " ++ e) ∈ (main env args).1 ∧
      ("❌ Error resetting password for user " ++ args.user_id ++ ": " ++ e)
        ≠ ("❌ User not found: " ++ args.user_id)) := by
  constructor
  · intro hu
    simp [main, mainResetStep, initialize_firebase, reset_user_password,
          hf, hi, hs, hu]
  · intro e hu
    refine ⟨?_, ?_, ?_⟩
    · simp [main, mainResetStep, initialize_firebase, reset_user_password,
            hf, hi, hs, hu]
    · simp [main, mainResetStep, initialize_firebase, reset_user_password,
            hf, hi, hs, hu]
    · intro hcontra
      have hl := congrArg String.length hcontra
      have l1 : ("❌ Error resetting password for user ").length = 36 := rfl
      have l2 : ("❌ User not found: ").length = 18 := rfl
      have l3 : (": ").length = 2 := rfl
      simp only [String.length_append, l1, l2, l3] at hl
      omega

/-- Closed instance of the C4 theorem at a concrete environment. -/
theorem reset_failure_messages_distinct_witness :
    ((main envUpdateError argsPlain).2 = 1 ∧
      Event.print ("❌ Error resetting password for user "
        ++ argsPlain.user_id ++ ": " ++ "quota exceeded")
        ∈ (main envUpdateError argsPlain).1 ∧
      ("❌ Error resetting password for user " ++ argsPlain.user_id
        ++ ": " ++ "quota exceeded")
        ≠ ("❌ User not found: " ++ argsPlain.user_id)) :=
  (reset_failure_messages_distinct_both_exit_one envUpdateError argsPlain
    rfl rfl rfl).2 ("quota exceeded") rfl

/-- C5: with `--show-user-info`, the lookup step reports user-not-found
distinctly: on `UserNotFoundError` the lookup itself prints nothing and
`main` prints the not-found line and exits 1; on any other lookup error the
lookup prints an error line that the not-found trace lacks; and when the
user exists the profile fields are printed. -/
theorem lookup_reports_not_found_distinctly (env : Env) (args : Args)
    (hf : env.fileExists args.credentials = true)
    (hi : env.initApp args.credentials = none)
    (hs : args.show_user_info = true) :
    (env.getUser args.user_id = SdkResult.userNotFound →
      get_user_info env args.user_id = ([Event.callGetUser args.user_id], none) ∧
      (main env args).2 = 1 ∧
      Event.print ("❌ User " ++ args.user_id ++ " not found")
        ∈ (main env args).1) ∧
    (∀ e, env.getUser args.user_id = SdkResult.otherError e →
      get_user_info env args.user_id =
        ([Event.callGetUser args.user_id,
          Event.print ("❌ Error getting user info: " ++ e)], none) ∧
      get_user_info env args.user_id ≠
        ([Event.callGetUser args.user_id], (none : Option UserInfoDict))) ∧
    (∀ u, env.getUser args.user_id = SdkResult.ok u →
      Event.print ("  Email: " ++ pyShowOptStr u.email) ∈ (main env args).1 ∧
      Event.print ("  Display Name: " ++ pyShowOptStr u.display_name)
        ∈ (main env args).1 ∧
      Event.print ("  Email Verified: " ++ pyShowBool u.email_verified)
        ∈ (main env args).1 ∧
      Event.print ("  Account Disabled: " ++ pyShowBool u.disabled)
        ∈ (main env args).1) := by
  refine ⟨?_, ?_, ?_⟩
  · intro hg
    refine ⟨by simp [get_user_info, hg], ?_, ?_⟩
    · simp [main, initialize_firebase, get_user_info, hf, hi, hs, hg]
    · simp [main, initialize_firebase, get_user_info, hf, hi, hs, hg]
  · intro e hg
    refine ⟨by simp [get_user_info, hg], by simp [get_user_info, hg]⟩
  · intro u hg
    cases hu : env.updateUser args.user_id args.password with
    | ok a =>
      cases a
      refine ⟨?_, ?_, ?_, ?_⟩ <;>
        simp [main, mainResetStep, initialize_firebase, get_user_info,
              reset_user_password, hf, hi, hs, hg, hu]
    | userNotFound =>
      refine ⟨?_, ?_, ?_, ?_⟩ <;>
        simp [main, mainResetStep, initialize_firebase, get_user_info,
              reset_user_password, hf, hi, hs, hg, hu]
    | otherError e =>
      refine ⟨?_, ?_, ?_, ?_⟩ <;>
        simp [main, mainResetStep, initialize_firebase, get_user_info,
              reset_user_password, hf, hi, hs, hg, hu]

/-- Closed instance of the C5 theorem at a concrete environment. -/
theorem lookup_reports_not_found_distinctly_witness :
    (get_user_info envUserMissing argsShow.user_id =
      ([Event.callGetUser argsShow.user_id], none) ∧
     (main envUserMissing argsShow).2 = 1 ∧
     Event.print ("❌ User " ++ argsShow.user_id ++ " not found")
       ∈ (main envUserMissing argsShow).1) :=
  (lookup_reports_not_found_distinctly envUserMissing argsShow
    rfl rfl rfl).1 rfl

/-- C8: any non-not-found lookup exception makes `get_user_info` return the
same `none` it returns for user-not-found, so with `--show-user-info` both
causes produce the not-found message and exit status 1. -/
theorem lookup_failures_collapse_to_none (env : Env) (args : Args)
    (hf : env.fileExists args.credentials = true)
    (hi : env.initApp args.credentials = none)
    (hs : args.show_user_info = true)
    (hg : env.getUser args.user_id = SdkResult.userNotFound ∨
          ∃ e, env.getUser args.user_id = SdkResult.otherError e) :
    (get_user_info env args.user_id).2 = none ∧
    (main env args).2 = 1 ∧
    Event.print ("❌ User " ++ args.user_id ++ " not found")
      ∈ (main env args).1 := by
  rcases hg with hg | ⟨e, hg⟩ <;>
    refine ⟨by simp [get_user_info, hg], ?_, ?_⟩ <;>
      simp [main, initialize_firebase, get_user_info, hf, hi, hs, hg]

/-- Closed instance of the C8 theorem at a concrete environment. -/
theorem lookup_failures_collapse_to_none_witness :
    (get_user_info envLookupError argsShow.user_id).2 = none ∧
    (main envLookupError argsShow).2 = 1 ∧
    Event.print ("❌ User " ++ argsShow.user_id ++ " not found")
      ∈ (main envLookupError argsShow).1 :=
  lookup_failures_collapse_to_none envLookupError argsShow rfl rfl rfl
    (Or.inr ⟨"network unreachable", rfl⟩)

/-- C10: `initialize_firebase` returns normally exactly when the
credentials file exists and the SDK initializes; when it instead exits,
`main` finishes with status 1 having issued no user operation; hence every
user operation in the trace happens after a successful initialization. -/
theorem init_failure_gates_user_ops (env : Env) (args : Args) :
    ((initialize_firebase env args.credentials).2 = some () ↔
      env.fileExists args.credentials = true ∧
      env.initApp args.credentials = none) ∧
    ((initialize_firebase env args.credentials).2 = none →
      (main env args).2 = 1 ∧
      List.countP isUserOp (main env args).1 = 0) ∧
    (∀ e, e ∈ (main env args).1 → isUserOp e = true →
      (initialize_firebase env args.credentials).2 = some ()) := by
  have hmain : (initialize_firebase env args.credentials).2 = none →
      (main env args).2 = 1 ∧
      List.countP isUserOp (main env args).1 = 0 := by
    intro h
    cases hfe : env.fileExists args.credentials with
    | false =>
        simp [main, initialize_firebase, hfe, List.countP_append,
              List.countP_cons, isUserOp, isUpdateCall, isGetUserCall]
    | true =>
        cases hia : env.initApp args.credentials with
        | none => simp [initialize_firebase, hfe, hia] at h
        | some m =>
            simp [main, initialize_firebase, hfe, hia, List.countP_append,
                  List.countP_cons, isUserOp, isUpdateCall, isGetUserCall]
  refine ⟨?_, hmain, ?_⟩
  · cases hfe : env.fileExists args.credentials with
    | false => simp [initialize_firebase, hfe]
    | true =>
        cases hia : env.initApp args.credentials with
        | none => simp [initialize_firebase, hfe, hia]
        | some m => simp [initialize_firebase, hfe, hia]
  · intro e he hop
    cases hinit : (initialize_firebase env args.credentials).2 with
    | some u => cases u; rfl
    | none =>
        have h2 := (hmain hinit).2
        have h3 := List.countP_eq_zero.mp h2 e he
        simp [hop] at h3

/-- Closed instance of the C10 theorem at a concrete environment. -/
theorem init_failure_gates_user_ops_witness :
    (main envNoFile argsPlain).2 = 1 ∧
    List.countP isUserOp (main envNoFile argsPlain).1 = 0 :=
  (init_failure_gates_user_ops envNoFile argsPlain).2.1 rfl

/-- Every password-update SDK call that `main` issues targets the parsed
user id and carries the parsed password. -/
theorem update_call_mem_main (env : Env) (args : Args) (uid pw : String)
    (h : Event.callUpdateUser uid pw ∈ (main env args).1) :
    uid = args.user_id ∧ pw = args.password := by
  cases hfe : env.fileExists args.credentials with
  | false => simp [main, initialize_firebase, hfe] at h
  | true =>
  cases hia : env.initApp args.credentials with
  | some m => simp [main, initialize_firebase, hfe, hia] at h
  | none =>
  cases hs : args.show_user_info with
  | false =>
    cases hu : env.updateUser args.user_id args.password with
    | ok a =>
        cases a
        simp [main, mainResetStep, initialize_firebase, reset_user_password,
              hfe, hia, hs, hu] at h
        exact h
    | userNotFound =>
        simp [main, mainResetStep, initialize_firebase, reset_user_password,
              hfe, hia, hs, hu] at h
        exact h
    | otherError e =>
        simp [main, mainResetStep, initialize_firebase, reset_user_password,
              hfe, hia, hs, hu] at h
        exact h
  | true =>
    cases hg : env.getUser args.user_id with
    | userNotFound =>
        simp [main, initialize_firebase, get_user_info, hfe, hia, hs, hg] at h
    | otherError e2 =>
        simp [main, initialize_firebase, get_user_info, hfe, hia, hs, hg] at h
    | ok u =>
        cases hu : env.updateUser args.user_id args.password with
        | ok a =>
            cases a
            simp [main, mainResetStep, initialize_firebase, get_user_info,
                  reset_user_password, hfe, hia, hs, hg, hu] at h
            exact h
        | userNotFound =>
            simp [main, mainResetStep, initialize_firebase, get_user_info,
                  reset_user_password, hfe, hia, hs, hg, hu] at h
            exact h
        | otherError e =>
            simp [main, mainResetStep, initialize_firebase, get_user_info,
                  reset_user_password, hfe, hia, hs, hg, hu] at h
            exact h

/-- C6: when `-p` is omitted, the parsed password is the documented
default `"password123"`, and every password-update call that `main` issues
carries exactly that value. -/
theorem omitted_password_uses_default (env : Env) (u c : String) (flag : Bool) :
    (parse_args u c none flag).password = "password123" ∧
    ∀ uid pw,
      Event.callUpdateUser uid pw ∈ (main env (parse_args u c none flag)).1 →
      pw = "password123" := by
  refine ⟨rfl, ?_⟩
  intro uid pw h
  have h2 := update_call_mem_main env (parse_args u c none flag) uid pw h
  simpa [parse_args] using h2.2

/-- Closed instance of the C6 theorem at a concrete environment. -/
theorem omitted_password_uses_default_witness :
    (parse_args ("alice") ("creds.json") none false).password = "password123" ∧
    ("password123" : String) = "password123" :=
  ⟨(omitted_password_uses_default envAllOk ("alice") ("creds.json") false).1,
   (omitted_password_uses_default envAllOk ("alice") ("creds.json") false).2
     ("alice") ("password123") (by decide)⟩

/-- C7: whenever `main` exits with code 0, the final success message prints
exactly the parsed password, and the update call that was issued carried
that same password for the parsed user id. -/
theorem success_prints_password_sent (env : Env) (args : Args)
    (h : (main env args).2 = 0) :
    Event.print ("   New password: " ++ args.password) ∈ (main env args).1 ∧
    Event.callUpdateUser args.user_id args.password ∈ (main env args).1 := by
  cases hfe : env.fileExists args.credentials with
  | false => simp [main, initialize_firebase, hfe] at h
  | true =>
  cases hia : env.initApp args.credentials with
  | some m => simp [main, initialize_firebase, hfe, hia] at h
  | none =>
  cases hs : args.show_user_info with
  | false =>
    cases hu : env.updateUser args.user_id args.password with
    | ok a =>
        cases a
        simp [main, mainResetStep, initialize_firebase, reset_user_password,
              hfe, hia, hs, hu]
    | userNotFound =>
        simp [main, mainResetStep, initialize_firebase, reset_user_password,
              hfe, hia, hs, hu] at h
    | otherError e =>
        simp [main, mainResetStep, initialize_firebase, reset_user_password,
              hfe, hia, hs, hu] at h
  | true =>
    cases hg : env.getUser args.user_id with
    | userNotFound =>
        simp [main, initialize_firebase, get_user_info, hfe, hia, hs, hg] at h
    | otherError e2 =>
        simp [main, initialize_firebase, get_user_info, hfe, hia, hs, hg] at h
    | ok u =>
        cases hu : env.updateUser args.user_id args.password with
        | ok a =>
            cases a
            simp [main, mainResetStep, initialize_firebase, get_user_info,
                  reset_user_password, hfe, hia, hs, hg, hu]
        | userNotFound =>
            simp [main, mainResetStep, initialize_firebase, get_user_info,
                  reset_user_password, hfe, hia, hs, hg, hu] at h
        | otherError e =>
            simp [main, mainResetStep, initialize_firebase, get_user_info,
                  reset_user_password, hfe, hia, hs, hg, hu] at h

/-- Closed instance of the C7 theorem at a concrete environment. -/
theorem success_prints_password_sent_witness :
    Event.print ("   New password: " ++ argsShow.password)
      ∈ (main envAllOk argsShow).1 ∧
    Event.callUpdateUser argsShow.user_id argsShow.password
      ∈ (main envAllOk argsShow).1 :=
  success_prints_password_sent envAllOk argsShow rfl

end ResetPassword
